import Mathlib

/-
Verification of the requirejs-fingerprint plugin (meinaart/requirejs-fingerprint).

The development shallowly embeds the module returned by the AMD factory in
the main plugin source (version 1.0.3): the one-time configuration
resolution performed at module initialisation, and the exported
load(name, req, onLoad, config) operation.  JavaScript values that flow
through the plugin (strings, plain objects used as fingerprint mappings,
arrays of extension names, null and undefined) are embedded as the
inductive type JVal; JavaScript truthiness, property access and the
string/number coercions the code relies on are embedded as explicit
functions.  The host loader (RequireJS) is embedded as a record of the
capabilities the plugin consumes: specified, defined, toUrl, and the
value the host resolves for a requested physical name.
-/

namespace Fingerprint

/-- Embedded JavaScript values: undefined, null, strings, arrays of
extension names, and plain objects (assoc lists of fields).  This covers
every value shape the plugin manipulates. -/
inductive JVal where
  | vundefined
  | jnull
  | vstr (s : String)
  | varr (elems : List String)
  | vobj (fields : List (String × JVal))

/-- Look up a field of an object literal (first binding wins, as for
JavaScript objects, which have no duplicate keys). -/
def lookupField : List (String × JVal) → String → Option JVal
  | [], _ => none
  | (k, v) :: rest, key => if k = key then some v else lookupField rest key

/-- Property access o[k]: an absent property reads as undefined; property
access on non-objects used by the plugin also yields undefined. -/
def getProp (v : JVal) (k : String) : JVal :=
  match v with
  | .vobj fs => (lookupField fs k).getD .vundefined
  | _ => .vundefined

/-- JavaScript truthiness for the embedded values: undefined and null are
falsy, a string is truthy iff non-empty, arrays and objects are truthy. -/
def truthy : JVal → Bool
  | .vundefined => false
  | .jnull => false
  | .vstr s => s != ""
  | .varr _ => true
  | .vobj _ => true

/-- Test for the undefined value (the code tests x !== undefined). -/
def isUndefined : JVal → Bool
  | .vundefined => true
  | _ => false

/-- Test used to embed typeof x === a string check. -/
def isStrJ : JVal → Bool
  | .vstr _ => true
  | _ => false

/-- JavaScript a || b on embedded values. -/
def jsOr (a b : JVal) : JVal := if truthy a then a else b

/-- JavaScript string coercion as used by the + concatenations in the
plugin: strings stay themselves, arrays join with commas, objects print
as [object Object]. -/
def jsToStr : JVal → String
  | .vundefined => "undefined"
  | .jnull => "null"
  | .vstr s => s
  | .varr l => String.intercalate "," l
  | .vobj _ => "[object Object]"

/-
String primitives.  The JavaScript string operations the plugin relies on
(trim, toLowerCase, endsWith-style regex anchoring, indexOf of the
delimiter, slicing) are embedded structurally over the character list of
a string, which JavaScript strings expose directly.
-/

/-- Strip leading and trailing whitespace (JavaScript String.trim). -/
def trimChars (l : List Char) : List Char :=
  ((l.dropWhile Char.isWhitespace).reverse.dropWhile Char.isWhitespace).reverse

/-- Lower-case the characters of a string (the i flag of the extension
regex folds case on both sides). -/
def lowerChars (s : String) : List Char := s.data.map Char.toLower

/-- Suffix test on character lists. -/
def charsEndWith (l sfx : List Char) : Bool := sfx.isSuffixOf l

/-- Embeds s.indexOf of the loader-prefix delimiter: true iff the string
holds an exclamation mark. -/
def hasBang (s : String) : Bool := s.data.any (fun c => c == '!')

/-- Drop the last n characters of a string. -/
def dropRightChars (s : String) (n : Nat) : String :=
  String.mk (s.data.take (s.data.length - n))

/-- Keep the last n characters of a string. -/
def takeRightChars (s : String) (n : Nat) : String :=
  String.mk (s.data.drop (s.data.length - n))

/-- All characters are decimal digits. -/
def digitsOnly (l : List Char) : Bool := l.all (fun c => c.isDigit)

/-- Split a character list at the first dot, if any. -/
def splitAtDot : List Char → (List Char × Option (List Char))
  | [] => ([], none)
  | c :: rest =>
      if c = '.' then ([], some rest)
      else
        let (i, f) := splitAtDot rest
        (c :: i, f)

/-- Embeds the JavaScript String(+s) round trip for a string s, as used in
the BEFORE_EXTENSION replacement: the string is trimmed, the empty string
coerces to 0, a plain decimal numeral (optional sign, integer digits,
optional fractional digits) coerces to its value and is rendered back in
canonical fixed notation, and every other string coerces to NaN.
Exponent and hexadecimal numeral forms, and the exponential rendering
JavaScript uses for extreme magnitudes, do not occur on the inputs this
development evaluates and are mapped to NaN / not modelled. -/
def numStrOfString (s : String) : String :=
  let t := trimChars s.data
  match t with
  | [] => "0"
  | _ =>
    let (neg, body) :=
      match t with
      | '-' :: r => (true, r)
      | '+' :: r => (false, r)
      | r => (false, r)
    let (ip, fpOpt) := splitAtDot body
    let fp := fpOpt.getD []
    if (ip ≠ [] ∨ fp ≠ []) ∧ digitsOnly ip ∧ digitsOnly fp then
      let ipz := ip.dropWhile (fun c => c = '0')
      let fpz := (fp.reverse.dropWhile (fun c => c = '0')).reverse
      let iOut := if ipz = [] then "0" else String.mk ipz
      if iOut = "0" ∧ fpz = [] then "0"
      else (if neg then "-" else "") ++ iOut ++
           (if fpz = [] then "" else "." ++ String.mk fpz)
    else "NaN"

/-- Embeds String(+x): the unary-plus numeric coercion followed by string
conversion, for each embedded value shape (+undefined is NaN, +null is 0,
an array coerces through its joined string form, an object gives NaN). -/
def jsPlusStr : JVal → String
  | .vstr s => numStrOfString s
  | .jnull => "0"
  | .vundefined => "NaN"
  | .varr l =>
      match l with
      | [] => "0"
      | [x] => numStrOfString x
      | _ => "NaN"
  | .vobj _ => "NaN"

/-- Resolved plugin options (source: the options literal, lines 58-64 of
the plugin).  The source field names prefix and suffix are Lean keywords
or reserved here, so they are embedded as prefx and sufx. -/
structure Options where
  mode : String
  sufx : String
  prefx : String
  defaultExtension : String
  extensions : List String

/-- Mode constant: append the fingerprint after the URL. -/
def APPEND : String := "append"

/-- Mode constant: splice the fingerprint before a recognised extension. -/
def BEFORE_EXTENSION : String := "beforeExtension"

/-- Built-in option defaults (plugin lines 58-64). -/
def defaultOptions : Options :=
  ⟨APPEND, "", "?", ".js", ["js", "css", "json"]⟩

/-- Read a string-valued field of an options object, with a default. -/
def strFieldD (patch : JVal) (k : String) (d : String) : String :=
  match getProp patch k with
  | .vstr s => s
  | _ => d

/-- Read an array-valued field of an options object, with a default. -/
def listFieldD (patch : JVal) (k : String) (d : List String) : List String :=
  match getProp patch k with
  | .varr l => l
  | _ => d

/-- Embeds extend(options, moduleConfig.options) (plugin lines 72-77,
92-94): every field present on the supplied options object overwrites the
built-in value; absent fields keep the built-in value.  Overrides are
modelled for the well-typed field shapes the plugin accepts
(string-valued mode, suffix, prefix and defaultExtension; array-valued
extensions). -/
def mergeOptions (base : Options) (patch : JVal) : Options :=
  ⟨strFieldD patch "mode" base.mode,
   strFieldD patch "suffix" base.sufx,
   strFieldD patch "prefix" base.prefx,
   strFieldD patch "defaultExtension" base.defaultExtension,
   listFieldD patch "extensions" base.extensions⟩

/-- The configuration state the module header computes once: the module
level variables defaultFingerprint, fingerprints and options. -/
structure ResolvedConfig where
  defaultFingerprint : JVal
  fingerprints : JVal
  opts : Options

/-- The candidate mapping-or-string selected on plugin line 83:
moduleConfig.fingerprint || moduleConfig.fingerprints || moduleConfig. -/
def configCandidate (mc : JVal) : JVal :=
  jsOr (getProp mc "fingerprint") (jsOr (getProp mc "fingerprints") mc)

/-- Embeds the module initialisation (plugin lines 43-95): a missing or
falsy module configuration throws (none); a string configuration becomes
the default fingerprint; an object configuration selects the candidate of
line 83, a string candidate becomes the default fingerprint with the
per-module mapping unset, otherwise the candidate is the per-module
mapping and its default entry, when truthy, becomes the default
fingerprint; a supplied options field is merged over the built-in
defaults. -/
def resolveConfig (mc : JVal) : Option ResolvedConfig :=
  if truthy mc = false then none
  else
    match mc with
    | .vstr s => some ⟨.vstr s, .vundefined, defaultOptions⟩
    | .vobj _ | .varr _ =>
        let fps0 := configCandidate mc
        let opts :=
          if isUndefined (getProp mc "options") then defaultOptions
          else mergeOptions defaultOptions (getProp mc "options")
        match fps0 with
        | .vstr s => some ⟨.vstr s, .vundefined, opts⟩
        | c =>
            some ⟨if truthy (getProp c "default") then getProp c "default"
                  else .vundefined,
                  c, opts⟩
    | _ => some ⟨.vundefined, .vundefined, defaultOptions⟩

/-- Embeds plugin lines 109-113: start from the default fingerprint and
take the per-module entry whenever the mapping is truthy and the entry is
not undefined (a defined-ness test, not a truthiness test). -/
def lookupFingerprint (dflt fps : JVal) (name : String) : JVal :=
  if truthy fps ∧ isUndefined (getProp fps name) = false then getProp fps name
  else dflt

/-- Embeds plugin lines 116-118: when a fingerprint value is truthy and at
least one of suffix and prefix is non-empty, wrap it as
prefix + fingerprint + suffix. -/
def wrapFingerprint (opts : Options) (f : JVal) : JVal :=
  if truthy f ∧ (opts.sufx ≠ "" ∨ opts.prefx ≠ "") then
    .vstr (opts.prefx ++ jsToStr f ++ opts.sufx)
  else f

/-- The fingerprint value in scope at plugin line 121: per-module lookup
followed by prefix/suffix wrapping. -/
def effectiveFingerprint (opts : Options) (dflt fps : JVal) (name : String) : JVal :=
  wrapFingerprint opts (lookupFingerprint dflt fps name)

/-- Embeds the extension regex of plugin line 98 applied to a URL: the
regex matches iff the URL ends, case-insensitively, in a dot followed by
one of the configured extension names, and the returned value is that
configured name.  This is the regex semantics for extension names free of
regex metacharacters (in particular dots), for which at most one
alternative can match the anchored end of the string. -/
def extMatch (exts : List String) (url : String) : Option String :=
  exts.find? (fun e => charsEndWith (lowerChars url) ('.' :: lowerChars e))

/-- Host capabilities consumed through the req argument of load, plus the
value the host resolves for a requested physical name (the argument of
the completion callback on plugin lines 162-164). -/
structure Req where
  specified : String → Bool
  defined : String → Bool
  toUrl : String → String
  resolve : String → JVal

/-- The per-call config argument of load: the build flag and the wildcard
bucket config.map of the host resolution config (none when the map or the
bucket is absent). -/
structure LoadConfig where
  isBuild : Bool
  starMap : Option (List (String × String))

/-- Observable outcome of one load call: the value passed to onLoad, the
physical name requested from the host (none during a build pass, when no
request is made), and the wildcard mapping bucket after the call. -/
structure LoadResult where
  onLoadValue : JVal
  requested : Option String
  starMap : Option (List (String × String))

/-- Embeds plugin line 123: a name holding the loader-prefix delimiter is
used verbatim as the URL, otherwise the host converts it. -/
def urlOf (toUrl : String → String) (name : String) : String :=
  if hasBang name = false then toUrl name else name

/-- Embeds plugin lines 125-147: the URL rewriting applied once a truthy
fingerprint is in scope.  A URL ending in a recognised extension either
has String(+fingerprint) spliced before the extension (BEFORE_EXTENSION)
or the fingerprint appended after it (any other mode).  Otherwise the
fingerprint is appended first in BEFORE_EXTENSION mode, the default
extension is appended whenever the URL has no delimiter and the default
extension is non-empty, and in APPEND mode the fingerprint is appended
last. -/
def rewriteUrl (opts : Options) (url : String) (f : JVal) : String :=
  match extMatch opts.extensions url with
  | some e =>
      if opts.mode = BEFORE_EXTENSION then
        dropRightChars url (e.data.length + 1) ++ jsPlusStr f ++ "." ++
          takeRightChars url e.data.length
      else url ++ jsToStr f
  | none =>
      let l0 := if opts.mode = BEFORE_EXTENSION then url ++ jsToStr f else url
      let l1 :=
        if hasBang url = false ∧ opts.defaultExtension ≠ "" then
          l0 ++ opts.defaultExtension
        else l0
      if opts.mode = APPEND then l1 ++ jsToStr f else l1

/-- The loadName variable at plugin line 161: the logical name unless the
name is unspecified, carries a truthy effective fingerprint and is not
already defined, in which case it is the rewritten URL. -/
def loadNameFor (rc : ResolvedConfig) (req : Req) (name : String) : String :=
  if req.specified name = false then
    let f := effectiveFingerprint rc.opts rc.defaultFingerprint rc.fingerprints name
    if truthy f ∧ req.defined name = false then
      rewriteUrl rc.opts (urlOf req.toUrl name) f
    else name
  else name

/-- Update one key of the wildcard bucket (JavaScript property
assignment). -/
def upsert : List (String × String) → String → String → List (String × String)
  | [], k, v => [(k, v)]
  | (k0, v0) :: rest, k, v =>
      if k0 = k then (k, v) :: rest else (k0, v0) :: upsert rest k v

/-- Embeds the replace of plugin line 156: strip one leading ./ from the
load name before recording it. -/
def stripDotSlash (s : String) : String :=
  match s.data with
  | '.' :: '/' :: rest => String.mk rest
  | _ => s

/-- Embeds the exported load operation (plugin lines 101-167).  A build
pass completes with null immediately.  Otherwise the load name is
computed, recorded in the wildcard bucket (created if absent) whenever it
differs from the logical name, and the module is requested from the host
under the load name with the host value passed through to onLoad. -/
def load (rc : ResolvedConfig) (name : String) (req : Req) (cfg : LoadConfig) :
    LoadResult :=
  if cfg.isBuild then ⟨.jnull, none, cfg.starMap⟩
  else
    let loadName := loadNameFor rc req name
    ⟨req.resolve loadName,
     some loadName,
     if name ≠ loadName then
       some (upsert (cfg.starMap.getD []) name (stripDotSlash loadName))
     else cfg.starMap⟩

/-
Specification-side definitions.  These restate, in the words of the
specification document (amended where a counterexample forces it), the
contracts of the configuration resolver and the fingerprint lookup, to be
compared with the definitions embedded from the source above.
-/

/-- Candidate selection as the specification words it, amended for the
counterexamples below: the candidate mapping-or-string is the first
truthy value among the fingerprint field, the fingerprints field and the
raw object itself. -/
def firstTruthyCandidate (mc : JVal) : JVal :=
  if truthy (getProp mc "fingerprint") then getProp mc "fingerprint"
  else if truthy (getProp mc "fingerprints") then getProp mc "fingerprints"
  else mc

/-- Amended claim C3, spec side: resolving an object-shaped raw
configuration yields, as the pair (default fingerprint, per-module
mapping): when the candidate is a string, that string with the mapping
unset; otherwise the candidate as the mapping, with the default
fingerprint set to the candidate's default entry when that entry is
truthy (non-empty) and unset otherwise. -/
def resolvedPairSpec (fields : List (String × JVal)) : JVal × JVal :=
  let cand := firstTruthyCandidate (JVal.vobj fields)
  match cand with
  | .vstr s => (.vstr s, .vundefined)
  | c =>
      (if truthy (getProp c "default") then getProp c "default" else .vundefined,
       c)

/-- Amended claim C4, spec side: against a per-module mapping, the
fingerprint for a logical name is the mapping entry for that exact name
if present (a defined-ness test), otherwise the mapping's default entry
if that entry is truthy (non-empty), otherwise no fingerprint. -/
def lookupEntrySpec (cand : JVal) (name : String) : JVal :=
  if isUndefined (getProp cand name) = false then getProp cand name
  else if truthy (getProp cand "default") then getProp cand "default"
  else .vundefined

/-
Concrete fixtures used by the witnesses, counterexamples and the
evaluation of the code at failing inputs.
-/

/-- Host with no module specified or defined, a given toUrl conversion,
and resolution that tags the requested physical name. -/
def reqWith (f : String → String) : Req :=
  ⟨fun _ => false, fun _ => false, f, fun s => .vstr s⟩

/-- Host whose toUrl is the identity. -/
def reqId : Req := reqWith id

/-- Host whose toUrl introduces a loader-prefix delimiter. -/
def reqBang : Req := reqWith (fun _ => "plug!widget")

/-- Host whose toUrl yields a URL with a leading ./ segment. -/
def req7 : Req := reqWith (fun _ => "./foo.js")

/-- Per-call config of an ordinary (non-build) load with no prior map. -/
def cfgPlain : LoadConfig := ⟨false, none⟩

/-- Per-call config of a build-pass load. -/
def cfgBuild : LoadConfig := ⟨true, none⟩

/-- Raw configuration with fingerprint .999 and BEFORE_EXTENSION mode,
with empty prefix and suffix so the effective fingerprint is .999
verbatim. -/
def mcC1 : JVal :=
  .vobj [("fingerprint", .vstr ".999"),
         ("options", .vobj [("mode", .vstr "beforeExtension"),
                            ("prefix", .vstr ""), ("suffix", .vstr "")])]

/-- The resolved form of mcC1. -/
def rcC1 : ResolvedConfig :=
  ⟨.vstr ".999", .vundefined,
   ⟨BEFORE_EXTENSION, "", "", ".js", ["js", "css", "json"]⟩⟩

/-- Resolved config: default fingerprint v=7 under the default options
(APPEND mode, prefix question mark). -/
def rcQ : ResolvedConfig := ⟨.vstr "v=7", .vundefined, defaultOptions⟩

/-- Resolved config: default fingerprint .123, BEFORE_EXTENSION mode,
empty prefix and suffix. -/
def rcBE : ResolvedConfig :=
  ⟨.vstr ".123", .vundefined, ⟨BEFORE_EXTENSION, "", "", ".js", ["js", "css", "json"]⟩⟩

/-- Resolved config: default fingerprint .123, APPEND mode, empty prefix
and suffix. -/
def rcAP : ResolvedConfig :=
  ⟨.vstr ".123", .vundefined, ⟨APPEND, "", "", ".js", ["js", "css", "json"]⟩⟩

/-- Resolved config: default fingerprint .123 under the default
options. -/
def rcD : ResolvedConfig := ⟨.vstr ".123", .vundefined, defaultOptions⟩

/-- Resolved config: default fingerprint v=1 under the default
options. -/
def rc7 : ResolvedConfig := ⟨.vstr "v=1", .vundefined, defaultOptions⟩

/-- Resolved config with no fingerprint configured at all. -/
def rcNone : ResolvedConfig := ⟨.vundefined, .vundefined, defaultOptions⟩

/-- Raw object config whose fingerprint field is the empty string and
whose fingerprints field is a mapping. -/
def mc3a : JVal :=
  .vobj [("fingerprint", .vstr ""), ("fingerprints", .vobj [("a", .vstr ".1")])]

/-- Raw direct-mapping config whose default entry is the empty string. -/
def mc3b : JVal := .vobj [("a", .vstr ".1"), ("default", .vstr "")]

/-- Raw direct-mapping config with an empty default entry, used against
lookup of an unmapped name. -/
def mc4 : JVal := .vobj [("x", .vstr ".5"), ("default", .vstr "")]

/-- The per-module mapping example of the specification. -/
def mc4ex : JVal := .vobj [("a", .vstr ".1"), ("default", .vstr ".9")]

/-
Theorems settling the claims.
-/

/-- Claim C1: in BEFORE_EXTENSION mode, with a recognised extension and an
effective fingerprint, the load name should be the URL with the
fingerprint spliced verbatim immediately before the matched extension
(basename + fingerprint + dot + ext).  The code instead splices
String(+fingerprint), the numeric coercion of the fingerprint: for url
app/main.js and effective fingerprint .999 it produces app/main0.999.js
rather than app/main.999.js (and under the default question-mark prefix
it produces app/mainNaN.js).  This theorem evaluates the embedded code at
that failing input. -/
theorem c1_before_extension_coerces_fingerprint :
    resolveConfig mcC1 = some rcC1 ∧
    (load rcC1 "app/main.js" reqId cfgPlain).requested = some "app/main0.999.js" ∧
    "app/main0.999.js" ≠ "app/main" ++ ".999" ++ "." ++ "js" :=
  ⟨rfl, rfl, by decide⟩

/-- Claim C5: in APPEND mode, when the resolved URL ends in a recognised
extension and an effective fingerprint exists, the computed load name is
exactly url + fingerprint. -/
theorem c5_append_matched (rc : ResolvedConfig) (req : Req) (cfg : LoadConfig)
    (name : String)
    (hb : cfg.isBuild = false)
    (hs : req.specified name = false)
    (hd : req.defined name = false)
    (hf : truthy (effectiveFingerprint rc.opts rc.defaultFingerprint rc.fingerprints name) = true)
    (hm : rc.opts.mode = APPEND)
    (hx : (extMatch rc.opts.extensions (urlOf req.toUrl name)).isSome = true) :
    (load rc name req cfg).requested =
      some (urlOf req.toUrl name ++
            jsToStr (effectiveFingerprint rc.opts rc.defaultFingerprint rc.fingerprints name)) := by
  obtain ⟨e, he⟩ := Option.isSome_iff_exists.mp hx
  simp [load, hb, loadNameFor, hs, hd, hf, rewriteUrl, he, hm, APPEND, BEFORE_EXTENSION]

/-- Witness for claim C5 at the example of the specification: url
styles/app.css with raw fingerprint v=7 under the default options (whose
prefix is the question mark) loads as styles/app.css?v=7. -/
theorem c5_witness :
    cfgPlain.isBuild = false ∧
    reqId.specified "styles/app.css" = false ∧
    reqId.defined "styles/app.css" = false ∧
    truthy (effectiveFingerprint rcQ.opts rcQ.defaultFingerprint rcQ.fingerprints "styles/app.css") = true ∧
    rcQ.opts.mode = APPEND ∧
    (extMatch rcQ.opts.extensions (urlOf reqId.toUrl "styles/app.css")).isSome = true ∧
    (load rcQ "styles/app.css" reqId cfgPlain).requested = some "styles/app.css?v=7" :=
  ⟨rfl, rfl, rfl, by decide, rfl, by decide,
   c5_append_matched rcQ reqId cfgPlain "styles/app.css" rfl rfl rfl (by decide) rfl (by decide)⟩

/-- Claim C9: a build-pass load completes with null, requests nothing
from the host and leaves the wildcard bucket untouched, for every
configuration and every host. -/
theorem c9_build_pass (rc : ResolvedConfig) (req : Req) (cfg : LoadConfig)
    (name : String) (hb : cfg.isBuild = true) :
    load rc name req cfg = ⟨JVal.jnull, none, cfg.starMap⟩ := by
  simp [load, hb]

/-- Witness for claim C9 at a concrete build-pass call. -/
theorem c9_witness :
    cfgBuild.isBuild = true ∧
    load rcQ "styles/app.css" reqId cfgBuild = ⟨JVal.jnull, none, none⟩ :=
  ⟨rfl, c9_build_pass rcQ reqId cfgBuild "styles/app.css" rfl⟩

/-- Counterexample to claim C2 as stated: in BEFORE_EXTENSION mode with
no recognised extension, the code does not stop at url + fingerprint; on
a delimiter-free URL with a non-empty default extension it appends the
default extension as well, so components/widget with effective
fingerprint .123 loads as components/widget.123.js, not
components/widget.123. -/
theorem c2_counterexample :
    (load rcBE "components/widget" reqId cfgPlain).requested =
      some "components/widget.123.js" ∧
    "components/widget.123.js" ≠ "components/widget" ++ ".123" :=
  ⟨rfl, by decide⟩

/-- Counterexample to claim C6 as stated: the delimiter test guarding the
default extension is on the resolved URL, not on the logical name.  For
the delimiter-free name widget whose host URL is plug!widget (no
recognised extension), the code skips the default extension and loads
plug!widget?.123, not plug!widget.js?.123 as the claim requires. -/
theorem c6_counterexample :
    hasBang "widget" = false ∧
    (load rcD "widget" reqBang cfgPlain).requested = some "plug!widget?.123" ∧
    "plug!widget?.123" ≠ "plug!widget" ++ ".js" ++ "?.123" :=
  ⟨by decide, rfl, by decide⟩

/-- Claim C2 as amended: in BEFORE_EXTENSION mode with no recognised
extension and an effective fingerprint, the load name is url +
fingerprint, with the default extension additionally appended after the
fingerprint whenever the URL holds no loader-prefix delimiter and the
default extension is non-empty. -/
theorem c2_before_extension_unmatched (rc : ResolvedConfig) (req : Req)
    (cfg : LoadConfig) (name : String)
    (hb : cfg.isBuild = false)
    (hs : req.specified name = false)
    (hd : req.defined name = false)
    (hf : truthy (effectiveFingerprint rc.opts rc.defaultFingerprint rc.fingerprints name) = true)
    (hm : rc.opts.mode = BEFORE_EXTENSION)
    (hx : extMatch rc.opts.extensions (urlOf req.toUrl name) = none) :
    (load rc name req cfg).requested =
      some (if hasBang (urlOf req.toUrl name) = false ∧ rc.opts.defaultExtension ≠ "" then
              urlOf req.toUrl name ++
                jsToStr (effectiveFingerprint rc.opts rc.defaultFingerprint rc.fingerprints name) ++
                rc.opts.defaultExtension
            else
              urlOf req.toUrl name ++
                jsToStr (effectiveFingerprint rc.opts rc.defaultFingerprint rc.fingerprints name)) := by
  simp only [effectiveFingerprint] at hf
  simp only [load, hb, Bool.false_eq_true, if_false, loadNameFor, hs, hd, hf,
    Bool.true_eq_false, and_true, if_true, rewriteUrl, hx, hm, BEFORE_EXTENSION, APPEND,
    effectiveFingerprint]
  split <;> simp_all [String.append_assoc]

/-- Witness for the amended claim C2 at a concrete input: name
components/widget under BEFORE_EXTENSION mode with effective fingerprint
.123 and default extension .js loads as components/widget.123.js. -/
theorem c2_witness :
    cfgPlain.isBuild = false ∧
    reqId.specified "components/widget" = false ∧
    reqId.defined "components/widget" = false ∧
    truthy (effectiveFingerprint rcBE.opts rcBE.defaultFingerprint rcBE.fingerprints "components/widget") = true ∧
    rcBE.opts.mode = BEFORE_EXTENSION ∧
    extMatch rcBE.opts.extensions (urlOf reqId.toUrl "components/widget") = none ∧
    (load rcBE "components/widget" reqId cfgPlain).requested =
      some "components/widget.123.js" :=
  ⟨rfl, rfl, rfl, by decide, rfl, by decide,
   c2_before_extension_unmatched rcBE reqId cfgPlain "components/widget"
     rfl rfl rfl (by decide) rfl (by decide)⟩

/-- Claim C6 as amended: in APPEND mode with no recognised extension and
an effective fingerprint, the load name is url + defaultExtension +
fingerprint when the resolved URL holds no loader-prefix delimiter and
the default extension is non-empty, and url + fingerprint otherwise (in
particular whenever the logical name holds the delimiter, since the name
is then used verbatim as the URL). -/
theorem c6_append_unmatched (rc : ResolvedConfig) (req : Req)
    (cfg : LoadConfig) (name : String)
    (hb : cfg.isBuild = false)
    (hs : req.specified name = false)
    (hd : req.defined name = false)
    (hf : truthy (effectiveFingerprint rc.opts rc.defaultFingerprint rc.fingerprints name) = true)
    (hm : rc.opts.mode = APPEND)
    (hx : extMatch rc.opts.extensions (urlOf req.toUrl name) = none) :
    (load rc name req cfg).requested =
      some (if hasBang (urlOf req.toUrl name) = false ∧ rc.opts.defaultExtension ≠ "" then
              urlOf req.toUrl name ++ rc.opts.defaultExtension ++
                jsToStr (effectiveFingerprint rc.opts rc.defaultFingerprint rc.fingerprints name)
            else
              urlOf req.toUrl name ++
                jsToStr (effectiveFingerprint rc.opts rc.defaultFingerprint rc.fingerprints name)) := by
  simp only [effectiveFingerprint] at hf
  simp only [load, hb, Bool.false_eq_true, if_false, loadNameFor, hs, hd, hf,
    Bool.true_eq_false, and_true, if_true, rewriteUrl, hx, hm, BEFORE_EXTENSION, APPEND,
    effectiveFingerprint]
  split <;> simp_all [String.append_assoc]

/-- Witness for the amended claim C6 at the example of the specification:
name components/widget under APPEND mode with effective fingerprint .123
and default extension .js loads as components/widget.js.123. -/
theorem c6_witness :
    cfgPlain.isBuild = false ∧
    reqId.specified "components/widget" = false ∧
    reqId.defined "components/widget" = false ∧
    truthy (effectiveFingerprint rcAP.opts rcAP.defaultFingerprint rcAP.fingerprints "components/widget") = true ∧
    rcAP.opts.mode = APPEND ∧
    extMatch rcAP.opts.extensions (urlOf reqId.toUrl "components/widget") = none ∧
    (load rcAP "components/widget" reqId cfgPlain).requested =
      some "components/widget.js.123" :=
  ⟨rfl, rfl, rfl, by decide, rfl, by decide,
   c6_append_unmatched rcAP reqId cfgPlain "components/widget"
     rfl rfl rfl (by decide) rfl (by decide)⟩

/-- Claim C7: for every non-build load call, the module is requested
under the computed load name, the wildcard bucket is written iff the load
name differs from the logical name, and the written entry maps the
logical name, in the bucket (created if absent), to the load name with a
single leading ./ stripped. -/
theorem c7_map_entry_iff (rc : ResolvedConfig) (req : Req) (cfg : LoadConfig)
    (name : String) (hb : cfg.isBuild = false) :
    (load rc name req cfg).requested = some (loadNameFor rc req name) ∧
    (loadNameFor rc req name = name → (load rc name req cfg).starMap = cfg.starMap) ∧
    (loadNameFor rc req name ≠ name →
      (load rc name req cfg).starMap =
        some (upsert (cfg.starMap.getD []) name
               (stripDotSlash (loadNameFor rc req name)))) := by
  refine ⟨?_, ?_, ?_⟩
  · simp [load, hb]
  · intro h; simp [load, hb, h]
  · intro h; simp [load, hb, Ne.symm h]

/-- Witness for claim C7: the computed load name ./foo.js?v=1 differs
from the logical name m and is recorded, with the leading ./ stripped, as
the entry m to foo.js?v=1 of the freshly created wildcard bucket. -/
theorem c7_witness :
    cfgPlain.isBuild = false ∧
    loadNameFor rc7 req7 "m" = "./foo.js?v=1" ∧
    loadNameFor rc7 req7 "m" ≠ "m" ∧
    (load rc7 "m" req7 cfgPlain).starMap = some [("m", "foo.js?v=1")] :=
  ⟨rfl, rfl, by decide,
   (c7_map_entry_iff rc7 req7 cfgPlain "m" rfl).2.2 (by decide)⟩

/-- Claim C8: a non-build load with no resolving fingerprint (no default
and no per-module entry), or whose name the host already reports as
specified, or as defined, performs no rewriting: the load name is the
logical name, the wildcard bucket is untouched, and the module is still
requested under the logical name with the host value passed through. -/
theorem c8_no_rewrite (rc : ResolvedConfig) (req : Req) (cfg : LoadConfig)
    (name : String) (hb : cfg.isBuild = false)
    (h : (isUndefined (getProp rc.fingerprints name) = true ∧ rc.defaultFingerprint = JVal.vundefined)
         ∨ req.specified name = true ∨ req.defined name = true) :
    loadNameFor rc req name = name ∧
    (load rc name req cfg).starMap = cfg.starMap ∧
    (load rc name req cfg).requested = some name ∧
    (load rc name req cfg).onLoadValue = req.resolve name := by
  have hln : loadNameFor rc req name = name := by
    rcases h with ⟨h1, h2⟩ | h | h
    · by_cases hs : req.specified name = false
      · simp [loadNameFor, hs, effectiveFingerprint, wrapFingerprint,
          lookupFingerprint, h1, h2, truthy]
      · simp [loadNameFor, hs]
    · simp [loadNameFor, h]
    · by_cases hs : req.specified name = false
      · simp [loadNameFor, hs, h]
      · simp [loadNameFor, hs]
  refine ⟨hln, ?_, ?_, ?_⟩ <;> simp [load, hb, hln]

/-- Witness for claim C8 with no fingerprint configured at all: the load
of mod requests mod itself, leaves the bucket untouched and passes the
host value through. -/
theorem c8_witness :
    cfgPlain.isBuild = false ∧
    isUndefined (getProp rcNone.fingerprints "mod") = true ∧
    rcNone.defaultFingerprint = JVal.vundefined ∧
    (load rcNone "mod" reqId cfgPlain).requested = some "mod" ∧
    (load rcNone "mod" reqId cfgPlain).onLoadValue = reqId.resolve "mod" :=
  ⟨rfl, rfl, rfl,
   (c8_no_rewrite rcNone reqId cfgPlain "mod" rfl (Or.inl ⟨rfl, rfl⟩)).2.2.1,
   (c8_no_rewrite rcNone reqId cfgPlain "mod" rfl (Or.inl ⟨rfl, rfl⟩)).2.2.2⟩

/-- Claim C10 (implicit): a per-module entry holding the empty string
opts that single module out of fingerprinting even when a default
fingerprint is configured: the entry is found by the defined-ness test
and overrides the default, the empty value is falsy so wrapping and
rewriting are skipped, the load name is the logical name, and no
wildcard-bucket entry is written. -/
theorem c10_empty_entry_opts_out (opts : Options) (dflt : JVal)
    (m : List (String × JVal)) (req : Req) (cfg : LoadConfig) (name : String)
    (hb : cfg.isBuild = false)
    (he : getProp (JVal.vobj m) name = JVal.vstr "") :
    loadNameFor ⟨dflt, JVal.vobj m, opts⟩ req name = name ∧
    (load ⟨dflt, JVal.vobj m, opts⟩ name req cfg).starMap = cfg.starMap ∧
    (load ⟨dflt, JVal.vobj m, opts⟩ name req cfg).requested = some name := by
  have hln : loadNameFor ⟨dflt, JVal.vobj m, opts⟩ req name = name := by
    by_cases hs : req.specified name = false
    · simp [loadNameFor, hs, effectiveFingerprint, wrapFingerprint,
        lookupFingerprint, he, truthy, isUndefined]
    · simp [loadNameFor, hs]
  exact ⟨hln, by simp [load, hb, hln], by simp [load, hb, hln]⟩

/-- Witness for claim C10: the mapping sends mod to the empty string
while the default fingerprint is .9; loading mod applies no fingerprint
and requests mod itself. -/
theorem c10_witness :
    cfgPlain.isBuild = false ∧
    getProp (JVal.vobj [("mod", JVal.vstr "")]) "mod" = JVal.vstr "" ∧
    (load ⟨JVal.vstr ".9", JVal.vobj [("mod", JVal.vstr "")], defaultOptions⟩
        "mod" reqId cfgPlain).requested = some "mod" :=
  ⟨rfl, rfl,
   (c10_empty_entry_opts_out defaultOptions (JVal.vstr ".9")
      [("mod", JVal.vstr "")] reqId cfgPlain "mod" rfl rfl).2.2⟩

/-- Counterexample to claim C3 as stated.  First input: a direct-mapping
configuration whose default entry is the empty string; the claim says
that entry's value becomes the effective default fingerprint, yet the
code leaves the default unset because its test is truthiness, not key
presence.  Second input: a configuration whose fingerprint field is the
empty string; the claim (fingerprint before fingerprints before the raw
object) would select that string and make it the default with no mapping
set, yet the code skips the falsy field and selects the fingerprints
mapping. -/
theorem c3_counterexample :
    getProp mc3b "default" = JVal.vstr "" ∧
    ((resolveConfig mc3b).map fun rc => rc.defaultFingerprint) = some JVal.vundefined ∧
    some JVal.vundefined ≠ some (JVal.vstr "") ∧
    getProp mc3a "fingerprint" = JVal.vstr "" ∧
    ((resolveConfig mc3a).map fun rc => rc.fingerprints) =
      some (JVal.vobj [("a", JVal.vstr ".1")]) ∧
    ((resolveConfig mc3a).map fun rc => rc.defaultFingerprint) = some JVal.vundefined :=
  ⟨rfl, rfl, fun h => JVal.noConfusion (Option.some.inj h), rfl, rfl, rfl⟩

/-- Claim C3 as amended: resolving an object-shaped raw configuration
selects as candidate the first truthy value among the fingerprint field,
the fingerprints field and the raw object itself; a string candidate
becomes the default fingerprint with the per-module mapping unset;
otherwise the candidate becomes the mapping and its default entry becomes
the effective default fingerprint exactly when that entry is truthy
(non-empty), the default staying unset otherwise. -/
theorem c3_object_resolution (fields : List (String × JVal)) :
    ((resolveConfig (JVal.vobj fields)).map
        fun rc => (rc.defaultFingerprint, rc.fingerprints))
      = some (resolvedPairSpec fields) := by
  have hcand : firstTruthyCandidate (JVal.vobj fields)
      = configCandidate (JVal.vobj fields) := rfl
  cases hc : configCandidate (JVal.vobj fields) <;>
    simp [resolveConfig, resolvedPairSpec, hcand, hc, truthy]

/-- Counterexample to claim C4 as stated: for the resolved mapping with
an empty default entry, lookup of the unmapped name y should, per the
claim, yield the present default entry (the empty string), yet the code
yields no fingerprint at all, because the default entry was discarded by
the truthiness test at resolution time. -/
theorem c4_counterexample :
    getProp mc4 "default" = JVal.vstr "" ∧
    ((resolveConfig mc4).map
        fun rc => lookupFingerprint rc.defaultFingerprint rc.fingerprints "y")
      = some JVal.vundefined ∧
    some JVal.vundefined ≠ some (JVal.vstr "") :=
  ⟨rfl, rfl, fun h => JVal.noConfusion (Option.some.inj h)⟩

/-- Claim C4 as amended: for a configuration resolved from an object, the
fingerprint looked up for a logical name is, when the candidate is a
mapping, the entry for that exact name if present, otherwise the
mapping's default entry if truthy (non-empty), otherwise none; a string
candidate acts as the scalar default for every name.  A string raw
configuration is the scalar default directly (an empty one is rejected at
initialisation).  The mapping example of the specification is included:
under the mapping a to .1 with default .9, a looks up .1 and the unmapped
b looks up .9. -/
theorem c4_lookup_precedence (fields : List (String × JVal)) (name s : String) :
    (((resolveConfig (JVal.vobj fields)).map
        fun rc => lookupFingerprint rc.defaultFingerprint rc.fingerprints name)
      = some (match configCandidate (JVal.vobj fields) with
              | .vstr t => .vstr t
              | c => lookupEntrySpec c name)) ∧
    (((resolveConfig (JVal.vstr s)).map
        fun rc => lookupFingerprint rc.defaultFingerprint rc.fingerprints name)
      = if s = "" then none else some (JVal.vstr s)) ∧
    ((resolveConfig mc4ex).map
        fun rc => lookupFingerprint rc.defaultFingerprint rc.fingerprints "a")
      = some (JVal.vstr ".1") ∧
    ((resolveConfig mc4ex).map
        fun rc => lookupFingerprint rc.defaultFingerprint rc.fingerprints "b")
      = some (JVal.vstr ".9") := by
  refine ⟨?_, ?_, rfl, rfl⟩
  · cases hc : configCandidate (JVal.vobj fields) <;>
      simp [resolveConfig, hc, lookupFingerprint, lookupEntrySpec, truthy, isUndefined, getProp]
  · by_cases hs : s = "" <;> simp [resolveConfig, hs, truthy, lookupFingerprint]

end Fingerprint
